import Mathlib

/-!
Shallow embedding of the FastAPI todo service (src/main.py) and proofs about
its handlers.

Modelling choices:
* JSON bodies are association lists `List (String × Json)` of scalar JSON
  values (objects/arrays as field values are not needed by any handler and are
  rejected by the schema anyway; they are not modelled).
* The pydantic models `TodoCreate` and `Todo` (main.py lines 19-27) become
  structures; pydantic validation of a request body becomes `parseTodoCreate`,
  which also records which optional fields were explicitly present, mirroring
  pydantic's `model_fields_set` that `model_dump(exclude_unset=True)` consults.
  Pydantic v2 lax coercion of numeric strings to `int` is modelled with
  `String.toInt?`; floats are not modelled.  Extra keys in the body (e.g.
  `completed`) are ignored, matching pydantic's default `extra="ignore"`.
* The global dict `todos` (line 30) becomes an insertion-ordered association
  list `Store` with Python-dict semantics: `dictGet` is `dict.get`, `dictSet`
  is `d[k] = v` (replace in place or append), `dictPop` is `d.pop(k)`.
* `datetime.now()` and `str(uuid.uuid4())` are nondeterministic, so each of
  the created timestamp and the generated id is passed to `create_todo` as an
  explicit argument.
* Each endpoint function composes FastAPI's framework steps in their actual
  order: dependencies (`get_todo_by_id`, which FastAPI resolves before body
  validation) first, then body validation, then the handler body.  A pydantic
  `BaseModel` instance is always truthy, so `if not todo` on line 35 is
  exactly the `None` check modelled here.
* HTTP outcomes become `Except Err _`: `Err.validation` is the 422 response,
  `Err.notFound msg` the 404 response with its `detail` string.
-/

namespace TodoApp

/-- Scalar JSON values, as they appear as fields of a request body. -/
inductive Json where
  | null
  | str (s : String)
  | int (n : Int)
  | bool (b : Bool)
deriving Repr, DecidableEq

/-- A decoded JSON request body: an object, i.e. a list of key/value pairs. -/
abbrev JsonObj := List (String × Json)

/-- Field lookup in a JSON object (first occurrence of the key). -/
def jlookup (k : String) : JsonObj → Option Json
  | [] => none
  | (k1, v) :: rest => if k1 = k then some v else jlookup k rest

/-- `class TodoCreate(BaseModel)` (main.py lines 19-22): required `title`,
optional `description` defaulting to `None`, optional `priority` defaulting
to `1`. -/
structure TodoCreate where
  title : String
  description : Option String := none
  priority : Option Int := some 1
deriving Repr, DecidableEq

/-- `class Todo(TodoCreate)` (main.py lines 24-27): adds `id`, `created_at`
and `completed` (default `False`) to the create schema. -/
structure Todo extends TodoCreate where
  id : String
  created_at : Nat
  completed : Bool := false
deriving Repr, DecidableEq

/-- Result of validating a request body against `TodoCreate`: the parsed
value together with pydantic's record of which optional fields were
explicitly present in the body (`model_fields_set`). -/
structure ParsedTodoCreate where
  value : TodoCreate
  descriptionSet : Bool
  prioritySet : Bool
deriving Repr, DecidableEq

/-- Validation of the required `title: str` field: present and a string
(pydantic v2 does not coerce numbers or booleans to `str`). -/
def parseTitleField : Option Json → Option String
  | some (Json.str t) => some t
  | _ => none

/-- Validation of `description: Optional[str] = None`: absent (defaults to
`None`, not marked set), JSON null, or a string. -/
def parseDescriptionField : Option Json → Option (Option String × Bool)
  | none => some (none, false)
  | some Json.null => some (none, true)
  | some (Json.str d) => some (some d, true)
  | some _ => none

/-- Validation of `priority: Optional[int] = 1`: absent (defaults to `1`,
not marked set), JSON null, an integer, or a numeric string (pydantic v2 lax
coercion); booleans are rejected for `int` fields. -/
def parsePriorityField : Option Json → Option (Option Int × Bool)
  | none => some (some 1, false)
  | some Json.null => some (none, true)
  | some (Json.int n) => some (some n, true)
  | some (Json.str s) => (s.toInt?).map (fun n => (some n, true))
  | some (Json.bool _) => none

/-- Pydantic validation of a request body against `TodoCreate`.  `none` is a
validation failure (HTTP 422).  Keys other than the three schema fields are
ignored. -/
def parseTodoCreate (body : JsonObj) : Option ParsedTodoCreate := do
  let title ← parseTitleField (jlookup "title" body)
  let d ← parseDescriptionField (jlookup "description" body)
  let p ← parsePriorityField (jlookup "priority" body)
  pure { value := { title := title, description := d.1, priority := p.1 },
         descriptionSet := d.2, prioritySet := p.2 }

/-- Error responses the service produces: 422 validation failure and 404 with
its detail message. -/
inductive Err where
  | validation
  | notFound (detail : String)
deriving Repr, DecidableEq

deriving instance DecidableEq for Except

/-- The in-memory store `todos = {}` (main.py line 30): a Python dict from id
strings to `Todo` records, modelled as an insertion-ordered association
list. -/
abbrev Store := List (String × Todo)

/-- `todos.get(todo_id)`. -/
def dictGet (k : String) : Store → Option Todo
  | [] => none
  | (k1, v) :: rest => if k1 = k then some v else dictGet k rest

/-- `todos[k] = v`: replace the value at an existing key in place, otherwise
append a new entry (Python dicts preserve insertion order). -/
def dictSet (k : String) (v : Todo) : Store → Store
  | [] => [(k, v)]
  | (k1, v1) :: rest => if k1 = k then (k, v) :: rest else (k1, v1) :: dictSet k v rest

/-- `todos.pop(k)`. -/
def dictPop (k : String) : Store → Store
  | [] => []
  | (k1, v1) :: rest => if k1 = k then rest else (k1, v1) :: dictPop k rest

/-- The 404 detail string of `get_todo_by_id` (main.py line 38). -/
def notFoundMsg (todo_id : String) : String :=
  "Todo with ID " ++ todo_id ++ " not found"

/-- `get_todo_by_id` (main.py lines 33-40): the shared lookup dependency.
`if not todo` is a `None` check since model instances are truthy. -/
def get_todo_by_id (todo_id : String) (todos : Store) : Except Err Todo :=
  match dictGet todo_id todos with
  | none => Except.error (Err.notFound (notFoundMsg todo_id))
  | some todo => Except.ok todo

/-- `POST /todos/` = body validation plus `create_todo` (main.py lines
42-52).  `todo_id` stands for `str(uuid.uuid4())` and `now` for
`datetime.now()`.  `**todo.model_dump()` passes every schema field, so the
record carries exactly the parsed values; `completed` takes its default
`False`. -/
def create_todo (body : JsonObj) (todo_id : String) (now : Nat) (todos : Store) :
    Except Err Todo × Store :=
  match parseTodoCreate body with
  | none => (Except.error Err.validation, todos)
  | some p =>
      let new_todo : Todo :=
        { id := todo_id, created_at := now,
          title := p.value.title, description := p.value.description,
          priority := p.value.priority, completed := false }
      (Except.ok new_todo, dictSet todo_id new_todo todos)

/-- `GET /todos/` = `list_todos` (main.py lines 54-57):
`list(todos.values())`. -/
def list_todos (todos : Store) : List Todo := todos.map Prod.snd

/-- `GET /todos/{todo_id}` = `get_todo` (main.py lines 59-62): just the
shared dependency's result. -/
def get_todo (todo_id : String) (todos : Store) : Except Err Todo :=
  get_todo_by_id todo_id todos

/-- `PATCH /todos/{todo_id}` = `update_todo` (main.py lines 64-78).  FastAPI
resolves the `get_todo_by_id` dependency before validating the body, so a
missing id yields 404 even for an invalid body.  The handler rebuilds a
`Todo` from the old record's `id`/`created_at`/`completed` plus
`update_data.model_dump(exclude_unset=True)`; schema fields absent from that
dump take the class defaults (`description=None`, `priority=1`). -/
def update_todo (todo_id : String) (body : JsonObj) (todos : Store) :
    Except Err Todo × Store :=
  match get_todo_by_id todo_id todos with
  | Except.error e => (Except.error e, todos)
  | Except.ok todo =>
      match parseTodoCreate body with
      | none => (Except.error Err.validation, todos)
      | some p =>
          let updated_todo : Todo :=
            { id := todo.id, created_at := todo.created_at,
              completed := todo.completed,
              title := p.value.title,
              description := if p.descriptionSet then p.value.description else none,
              priority := if p.prioritySet then p.value.priority else some 1 }
          (Except.ok updated_todo, dictSet todo_id updated_todo todos)

/-- `DELETE /todos/{todo_id}` = `delete_todo` (main.py lines 80-84): the
shared dependency then `todos.pop(todo.id)`; the 204 no-content success is
`Except.ok ()`. -/
def delete_todo (todo_id : String) (todos : Store) : Except Err Unit × Store :=
  match get_todo_by_id todo_id todos with
  | Except.error e => (Except.error e, todos)
  | Except.ok todo => (Except.ok (), dictPop todo.id todos)

/-- A sequence of create requests executed in order, each with its own
generated id and timestamp: returns the list of responses and the final
store. -/
def createSeq : List (JsonObj × String × Nat) → Store → List (Except Err Todo) × Store
  | [], todos => ([], todos)
  | (body, todo_id, now) :: rest, todos =>
      let r := create_todo body todo_id now todos
      let rs := createSeq rest r.2
      (r.1 :: rs.1, rs.2)

/-- The store's keys are pairwise distinct (true of a Python dict by
construction). -/
def KeysNodup (todos : Store) : Prop := (todos.map Prod.fst).Nodup

/-- Store well-formedness: distinct keys and every record stored under its
own `id` (every handler inserts with `todos[x] = record` where `record.id`
equals the key it was found under or created with). -/
def StoreWF (todos : Store) : Prop :=
  KeysNodup todos ∧ ∀ p ∈ todos, (p.2).id = p.1

instance (todos : Store) : Decidable (KeysNodup todos) := by
  unfold KeysNodup; infer_instance

instance (todos : Store) : Decidable (StoreWF todos) := by
  unfold StoreWF KeysNodup; exact instDecidableAnd

/-! Concrete fixtures used by counterexamples and witnesses. -/

/-- The create body of the spec's partial-update example:
`{title: "A", description: "d", priority: 2}`. -/
def exCreateBody : JsonObj :=
  [("title", Json.str "A"), ("description", Json.str "d"), ("priority", Json.int 2)]

/-- The record that create stores for `exCreateBody` with id `"X"` at time 0. -/
def exTodo : Todo :=
  { id := "X", title := "A", description := some "d", priority := some 2,
    created_at := 0, completed := false }

/-- The store after creating `exCreateBody` (id `"X"`, time 0) in an empty
store. -/
def exStore : Store := (create_todo exCreateBody "X" 0 []).2

example : create_todo exCreateBody "X" 0 [] = (Except.ok exTodo, [("X", exTodo)]) := by
  decide

example : exStore = [("X", exTodo)] := by decide

/-! Basic dictionary lemmas. -/

theorem dictGet_dictSet_self (k : String) (v : Todo) (s : Store) :
    dictGet k (dictSet k v s) = some v := by
  induction s with
  | nil => simp [dictGet, dictSet]
  | cons p rest ih =>
      obtain ⟨k1, v1⟩ := p
      by_cases h : k1 = k <;> simp [dictGet, dictSet, h, ih]

theorem dictGet_dictSet_ne (k k1 : String) (v : Todo) (s : Store) (h : k1 ≠ k) :
    dictGet k (dictSet k1 v s) = dictGet k s := by
  induction s with
  | nil => simp [dictGet, dictSet, h]
  | cons p rest ih =>
      obtain ⟨k2, v2⟩ := p
      by_cases h2 : k2 = k1
      · subst h2; simp [dictGet, dictSet, h]
      · simp only [dictSet, if_neg h2, dictGet]
        by_cases h3 : k2 = k
        · simp [h3]
        · simp [h3, ih]

theorem dictGet_eq_none_of_not_mem (k : String) (s : Store)
    (h : k ∉ s.map Prod.fst) : dictGet k s = none := by
  induction s with
  | nil => rfl
  | cons p rest ih =>
      obtain ⟨k1, v1⟩ := p
      simp only [List.map_cons, List.mem_cons] at h
      push_neg at h
      have h1 : ¬ k1 = k := fun he => h.1 he.symm
      simp [dictGet, h1, ih h.2]

theorem dictGet_dictPop_self (k : String) (s : Store) (h : KeysNodup s) :
    dictGet k (dictPop k s) = none := by
  induction s with
  | nil => rfl
  | cons p rest ih =>
      obtain ⟨k1, v1⟩ := p
      rw [KeysNodup, List.map_cons, List.nodup_cons] at h
      by_cases h1 : k1 = k
      · subst h1
        simp only [dictPop, if_pos rfl]
        exact dictGet_eq_none_of_not_mem _ rest h.1
      · simp only [dictPop, if_neg h1, dictGet]
        exact ih h.2

theorem dictGet_dictPop_ne (k k1 : String) (s : Store) (h : k1 ≠ k) :
    dictGet k (dictPop k1 s) = dictGet k s := by
  induction s with
  | nil => rfl
  | cons p rest ih =>
      obtain ⟨k2, v2⟩ := p
      by_cases h2 : k2 = k1
      · subst h2
        have hne : ¬ k2 = k := fun he => h (he ▸ rfl)
        simp [dictPop, dictGet, hne]
      · simp only [dictPop, if_neg h2, dictGet]
        by_cases h3 : k2 = k
        · simp [h3]
        · simp [h3, ih]

theorem dictGet_mem (k : String) (s : Store) (t : Todo)
    (h : dictGet k s = some t) : (k, t) ∈ s := by
  induction s with
  | nil => simp [dictGet] at h
  | cons p rest ih =>
      obtain ⟨k1, v1⟩ := p
      by_cases h1 : k1 = k
      · subst h1
        simp [dictGet] at h
        subst h
        exact List.mem_cons_self _ _
      · simp only [dictGet, if_neg h1] at h
        exact List.mem_cons_of_mem _ (ih h)

theorem dictSet_fresh (k : String) (v : Todo) (s : Store)
    (h : dictGet k s = none) : dictSet k v s = s ++ [(k, v)] := by
  induction s with
  | nil => rfl
  | cons p rest ih =>
      obtain ⟨k1, v1⟩ := p
      by_cases h1 : k1 = k
      · subst h1; simp [dictGet] at h
      · simp only [dictGet, if_neg h1] at h
        simp [dictSet, h1, ih h]

theorem dictGet_append_of_none (k : String) (s1 s2 : Store)
    (h : dictGet k s1 = none) : dictGet k (s1 ++ s2) = dictGet k s2 := by
  induction s1 with
  | nil => rfl
  | cons p rest ih =>
      obtain ⟨k1, v1⟩ := p
      by_cases h1 : k1 = k
      · subst h1; simp [dictGet] at h
      · simp only [dictGet, if_neg h1] at h
        simp [dictGet, h1, ih h]

/-! Analysis of `parseTodoCreate` and of a successful update. -/

theorem jlookup_cons_ne (k k1 : String) (v : Json) (body : JsonObj)
    (h : k1 ≠ k) : jlookup k ((k1, v) :: body) = jlookup k body := by
  simp [jlookup, h]

theorem parseTodoCreate_eq (body : JsonObj) (p : ParsedTodoCreate)
    (h : parseTodoCreate body = some p) :
    ∃ t d pr, parseTitleField (jlookup "title" body) = some t
      ∧ parseDescriptionField (jlookup "description" body) = some d
      ∧ parsePriorityField (jlookup "priority" body) = some pr
      ∧ p = { value := { title := t, description := d.1, priority := pr.1 },
              descriptionSet := d.2, prioritySet := pr.2 } := by
  cases h1 : parseTitleField (jlookup "title" body) with
  | none => simp [parseTodoCreate, h1] at h
  | some t =>
    cases h2 : parseDescriptionField (jlookup "description" body) with
    | none => simp [parseTodoCreate, h1, h2] at h
    | some d =>
      cases h3 : parsePriorityField (jlookup "priority" body) with
      | none => simp [parseTodoCreate, h1, h2, h3] at h
      | some pr =>
        simp [parseTodoCreate, h1, h2, h3] at h
        exact ⟨t, d, pr, rfl, rfl, rfl, h.symm⟩

theorem parse_title_str (body : JsonObj) (p : ParsedTodoCreate) (t1 : String)
    (h : parseTodoCreate body = some p)
    (ht : jlookup "title" body = some (Json.str t1)) :
    p.value.title = t1 := by
  obtain ⟨t, d, pr, h1, h2, h3, rfl⟩ := parseTodoCreate_eq body p h
  rw [ht] at h1
  simp [parseTitleField] at h1
  simp_all

theorem parse_description_absent (body : JsonObj) (p : ParsedTodoCreate)
    (h : parseTodoCreate body = some p)
    (hd : jlookup "description" body = none) :
    p.value.description = none ∧ p.descriptionSet = false := by
  obtain ⟨t, d, pr, h1, h2, h3, rfl⟩ := parseTodoCreate_eq body p h
  rw [hd] at h2
  simp [parseDescriptionField] at h2
  subst h2
  exact ⟨rfl, rfl⟩

theorem parse_description_str (body : JsonObj) (p : ParsedTodoCreate)
    (d1 : String) (h : parseTodoCreate body = some p)
    (hd : jlookup "description" body = some (Json.str d1)) :
    p.value.description = some d1 ∧ p.descriptionSet = true := by
  obtain ⟨t, d, pr, h1, h2, h3, rfl⟩ := parseTodoCreate_eq body p h
  rw [hd] at h2
  simp [parseDescriptionField] at h2
  subst h2
  exact ⟨rfl, rfl⟩

theorem parse_priority_absent (body : JsonObj) (p : ParsedTodoCreate)
    (h : parseTodoCreate body = some p)
    (hp : jlookup "priority" body = none) :
    p.value.priority = some 1 ∧ p.prioritySet = false := by
  obtain ⟨t, d, pr, h1, h2, h3, rfl⟩ := parseTodoCreate_eq body p h
  rw [hp] at h3
  simp [parsePriorityField] at h3
  subst h3
  exact ⟨rfl, rfl⟩

theorem parse_priority_int (body : JsonObj) (p : ParsedTodoCreate) (n : Int)
    (h : parseTodoCreate body = some p)
    (hp : jlookup "priority" body = some (Json.int n)) :
    p.value.priority = some n ∧ p.prioritySet = true := by
  obtain ⟨t, d, pr, h1, h2, h3, rfl⟩ := parseTodoCreate_eq body p h
  rw [hp] at h3
  simp [parsePriorityField] at h3
  subst h3
  exact ⟨rfl, rfl⟩

theorem parse_priority_null (body : JsonObj) (p : ParsedTodoCreate)
    (h : parseTodoCreate body = some p)
    (hp : jlookup "priority" body = some Json.null) :
    p.value.priority = none ∧ p.prioritySet = true := by
  obtain ⟨t, d, pr, h1, h2, h3, rfl⟩ := parseTodoCreate_eq body p h
  rw [hp] at h3
  simp [parsePriorityField] at h3
  subst h3
  exact ⟨rfl, rfl⟩

/-- Shape of a successful update: the stored and returned record is built
from the old record's `id`/`created_at`/`completed` and the parsed body,
with unset optional fields falling back to the class defaults. -/
theorem update_ok (todo_id : String) (body : JsonObj) (todos : Store)
    (old : Todo) (p : ParsedTodoCreate)
    (hold : dictGet todo_id todos = some old)
    (hp : parseTodoCreate body = some p) :
    ∃ u : Todo,
      update_todo todo_id body todos = (Except.ok u, dictSet todo_id u todos)
      ∧ u.id = old.id ∧ u.created_at = old.created_at
      ∧ u.completed = old.completed ∧ u.title = p.value.title
      ∧ u.description = (if p.descriptionSet then p.value.description else none)
      ∧ u.priority = (if p.prioritySet then p.value.priority else some 1) := by
  refine ⟨{ id := old.id, created_at := old.created_at, completed := old.completed,
            title := p.value.title,
            description := if p.descriptionSet then p.value.description else none,
            priority := if p.prioritySet then p.value.priority else some 1 },
          ?_, rfl, rfl, rfl, rfl, rfl, rfl⟩
  simp [update_todo, get_todo_by_id, hold, hp]

/-! The claim theorems. -/

/-- Claim C3: a create request whose body contains only the required `title`
field yields (and stores under the generated id) a record with
`priority = 1`, `completed = false`, the non-empty generated id,
`description = null`, and `created_at` stamped at creation; a body whose
`title` is missing or of the wrong type fails validation and leaves the
store unchanged. -/
theorem C3_create_with_only_title (t todo_id : String) (now : Nat)
    (todos : Store) (bad : JsonObj)
    (hid : todo_id ≠ "")
    (hbad : parseTitleField (jlookup "title" bad) = none) :
    (∃ u : Todo,
        create_todo [("title", Json.str t)] todo_id now todos
          = (Except.ok u, dictSet todo_id u todos)
        ∧ dictGet todo_id (create_todo [("title", Json.str t)] todo_id now todos).2
            = some u
        ∧ u.priority = some 1 ∧ u.completed = false ∧ u.id = todo_id
        ∧ u.id ≠ "" ∧ u.description = none ∧ u.created_at = now ∧ u.title = t)
    ∧ create_todo bad todo_id now todos = (Except.error Err.validation, todos) := by
  constructor
  · refine ⟨{ id := todo_id, title := t, description := none, priority := some 1,
              created_at := now, completed := false },
            rfl, ?_, rfl, rfl, rfl, hid, rfl, rfl, rfl⟩
    exact dictGet_dictSet_self _ _ _
  · simp [create_todo, parseTodoCreate, hbad]

/-- Witness for C3 at concrete inputs: a fresh store, id `"X"`, time 5, and
a bad body whose `title` is a number (wrong type). -/
theorem C3_create_with_only_title_witness :
    ("X" : String) ≠ ""
    ∧ parseTitleField (jlookup "title" [("title", Json.int 7)]) = none
    ∧ ((∃ u : Todo,
          create_todo [("title", Json.str "t")] "X" 5 []
            = (Except.ok u, dictSet "X" u [])
          ∧ dictGet "X" (create_todo [("title", Json.str "t")] "X" 5 []).2 = some u
          ∧ u.priority = some 1 ∧ u.completed = false ∧ u.id = "X"
          ∧ u.id ≠ "" ∧ u.description = none ∧ u.created_at = 5 ∧ u.title = "t")
        ∧ create_todo [("title", Json.int 7)] "X" 5 []
            = (Except.error Err.validation, [])) :=
  ⟨by decide, by decide,
   C3_create_with_only_title "t" "X" 5 [] [("title", Json.int 7)]
     (by decide) (by decide)⟩

/-- Claim C4: the shared lookup `get_todo_by_id` fails with a 404 whose
message names the missing id exactly when the id is absent from the store;
on a present id the get handler returns exactly the stored record; the
update and delete handlers surface the same 404 on an absent id. -/
theorem C4_shared_lookup (todo_id : String) (todos : Store) :
    (get_todo_by_id todo_id todos
        = Except.error (Err.notFound ("Todo with ID " ++ todo_id ++ " not found"))
      ↔ dictGet todo_id todos = none)
    ∧ (∀ t, dictGet todo_id todos = some t → get_todo todo_id todos = Except.ok t)
    ∧ (∀ body, dictGet todo_id todos = none →
        (update_todo todo_id body todos).1
          = Except.error (Err.notFound ("Todo with ID " ++ todo_id ++ " not found")))
    ∧ (dictGet todo_id todos = none →
        (delete_todo todo_id todos).1
          = Except.error (Err.notFound ("Todo with ID " ++ todo_id ++ " not found"))) := by
  cases hcase : dictGet todo_id todos with
  | none =>
      simp [get_todo_by_id, get_todo, update_todo, delete_todo, notFoundMsg, hcase]
  | some t0 =>
      simp [get_todo_by_id, get_todo, update_todo, delete_todo, notFoundMsg, hcase]

/-- Witness for C4: the present id `"X"` of `exStore` is returned as stored,
and the absent id `"Y"` produces the 404 with `"Y"` in its message. -/
theorem C4_shared_lookup_witness :
    dictGet "X" exStore = some exTodo
    ∧ get_todo "X" exStore = Except.ok exTodo
    ∧ dictGet "Y" exStore = none
    ∧ get_todo_by_id "Y" exStore
        = Except.error (Err.notFound ("Todo with ID " ++ "Y" ++ " not found")) :=
  ⟨by decide, (C4_shared_lookup "X" exStore).2.1 exTodo (by decide),
   by decide, (C4_shared_lookup "Y" exStore).1.mpr (by decide)⟩

/-- Claim C9: when the id is absent, each of the update, delete, and get
handlers fails with the 404 and returns the store exactly as it was: no
record is inserted, removed, or modified on the not-found path.  (The get
and list handlers never write the store at all: in this embedding they are
read-only functions of it.) -/
theorem C9_not_found_leaves_store (todo_id : String) (body : JsonObj)
    (todos : Store) (habs : dictGet todo_id todos = none) :
    update_todo todo_id body todos
        = (Except.error (Err.notFound (notFoundMsg todo_id)), todos)
    ∧ delete_todo todo_id todos
        = (Except.error (Err.notFound (notFoundMsg todo_id)), todos)
    ∧ get_todo todo_id todos = Except.error (Err.notFound (notFoundMsg todo_id)) := by
  simp [update_todo, delete_todo, get_todo, get_todo_by_id, habs]

/-- Claim C10: a create or update body that explicitly sets `priority` to
JSON null passes validation and stores a record whose priority is null, not
the default 1: the declared default applies only when the field is omitted,
so a stored priority need not be an integer. -/
theorem C10_null_priority (body : JsonObj) (todo_id g : String) (now : Nat)
    (todos : Store) (old : Todo) (p : ParsedTodoCreate)
    (hparse : parseTodoCreate body = some p)
    (hnull : jlookup "priority" body = some Json.null)
    (hold : dictGet todo_id todos = some old) :
    p.value.priority = none
    ∧ (∃ u : Todo, (create_todo body g now todos).1 = Except.ok u
        ∧ dictGet g (create_todo body g now todos).2 = some u
        ∧ u.priority = none)
    ∧ (∃ u : Todo, (update_todo todo_id body todos).1 = Except.ok u
        ∧ dictGet todo_id (update_todo todo_id body todos).2 = some u
        ∧ u.priority = none) := by
  obtain ⟨hprio, hset⟩ := parse_priority_null body p hparse hnull
  refine ⟨hprio, ?_, ?_⟩
  · refine ⟨{ id := g, created_at := now, title := p.value.title,
              description := p.value.description, priority := p.value.priority,
              completed := false }, ?_, ?_, hprio⟩
    · simp [create_todo, hparse]
    · simp [create_todo, hparse, dictGet_dictSet_self]
  · obtain ⟨u, hu, hid, hca, hco, hti, hde, hpr⟩ :=
      update_ok todo_id body todos old p hold hparse
    refine ⟨u, by rw [hu], ?_, ?_⟩
    · rw [hu]; exact dictGet_dictSet_self _ _ _
    · rw [hpr, hset]; simp [hprio]

/-- Witness for C10 at the concrete body `{title: "t", priority: null}`
against store `exStore` (update target `"X"`, create id `"G"`, time 9). -/
theorem C10_null_priority_witness :
    parseTodoCreate [("title", Json.str "t"), ("priority", Json.null)]
      = some { value := { title := "t", description := none, priority := none },
               descriptionSet := false, prioritySet := true }
    ∧ jlookup "priority" [("title", Json.str "t"), ("priority", Json.null)]
        = some Json.null
    ∧ dictGet "X" exStore = some exTodo
    ∧ (({ value := { title := "t", description := none, priority := none },
          descriptionSet := false, prioritySet := true } :
            ParsedTodoCreate).value.priority = none
      ∧ (∃ u : Todo,
          (create_todo [("title", Json.str "t"), ("priority", Json.null)] "G" 9 exStore).1
            = Except.ok u
          ∧ dictGet "G"
              (create_todo [("title", Json.str "t"), ("priority", Json.null)] "G" 9 exStore).2
              = some u
          ∧ u.priority = none)
      ∧ (∃ u : Todo,
          (update_todo "X" [("title", Json.str "t"), ("priority", Json.null)] exStore).1
            = Except.ok u
          ∧ dictGet "X"
              (update_todo "X" [("title", Json.str "t"), ("priority", Json.null)] exStore).2
              = some u
          ∧ u.priority = none)) :=
  ⟨by decide, by decide, by decide,
   C10_null_priority [("title", Json.str "t"), ("priority", Json.null)] "X" "G" 9
     exStore exTodo
     { value := { title := "t", description := none, priority := none },
       descriptionSet := false, prioritySet := true }
     (by decide) (by decide) (by decide)⟩

/-- Counterexample to claim C1 as stated: after creating
`{title: "A", description: "d", priority: 2}` as `"X"`, updating with body
`{title: "B"}` yields `description = null` and `priority = 1` — the fields
absent from the body do NOT retain their previous values `"d"` and `2`. -/
theorem C1_counterexample :
    (update_todo "X" [("title", Json.str "B")] exStore).1
      = Except.ok { id := "X", title := "B", description := none,
                    priority := some 1, created_at := 0, completed := false }
    ∧ (update_todo "X" [("title", Json.str "B")] exStore).1
        ≠ Except.ok { id := "X", title := "B", description := some "d",
                      priority := some 2, created_at := 0, completed := false } := by
  decide

/-- Claim C1 (amended): the update handler overwrites the fields explicitly
present in the request body and keeps the existing `id`, `created_at`, and
`completed`, but fields absent from the body are reset to the schema
defaults (`description` → null, `priority` → 1) instead of retaining their
previous values; the example therefore yields `title = "B"`,
`description = null`, `priority = 1`. -/
theorem C1_update_fields (todo_id : String) (body : JsonObj) (todos : Store)
    (old : Todo) (p : ParsedTodoCreate)
    (hold : dictGet todo_id todos = some old)
    (hparse : parseTodoCreate body = some p) :
    ∃ u : Todo,
      update_todo todo_id body todos = (Except.ok u, dictSet todo_id u todos)
      ∧ u.id = old.id ∧ u.created_at = old.created_at ∧ u.completed = old.completed
      ∧ (∀ t1, jlookup "title" body = some (Json.str t1) → u.title = t1)
      ∧ (jlookup "description" body = none → u.description = none)
      ∧ (∀ d1, jlookup "description" body = some (Json.str d1)
          → u.description = some d1)
      ∧ (jlookup "priority" body = none → u.priority = some 1)
      ∧ (∀ n, jlookup "priority" body = some (Json.int n) → u.priority = some n) := by
  obtain ⟨u, hu, hid, hca, hco, hti, hde, hpr⟩ :=
    update_ok todo_id body todos old p hold hparse
  refine ⟨u, hu, hid, hca, hco, ?_, ?_, ?_, ?_, ?_⟩
  · intro t1 ht; rw [hti]; exact parse_title_str body p t1 hparse ht
  · intro hd
    obtain ⟨h1, h2⟩ := parse_description_absent body p hparse hd
    rw [hde, h2]; simp
  · intro d1 hd
    obtain ⟨h1, h2⟩ := parse_description_str body p d1 hparse hd
    rw [hde, h2]; simp [h1]
  · intro hp2
    obtain ⟨h1, h2⟩ := parse_priority_absent body p hparse hp2
    rw [hpr, h2]; simp
  · intro n hp2
    obtain ⟨h1, h2⟩ := parse_priority_int body p n hparse hp2
    rw [hpr, h2]; simp [h1]

/-- Witness for the amended C1 at the spec's example: store `exStore`
(holding `"X"` = `{title: "A", description: "d", priority: 2}`), update body
`{title: "B"}`. -/
theorem C1_update_fields_witness :
    dictGet "X" exStore = some exTodo
    ∧ parseTodoCreate [("title", Json.str "B")]
        = some { value := { title := "B", description := none, priority := some 1 },
                 descriptionSet := false, prioritySet := false }
    ∧ (∃ u : Todo,
        update_todo "X" [("title", Json.str "B")] exStore
          = (Except.ok u, dictSet "X" u exStore)
        ∧ u.id = exTodo.id ∧ u.created_at = exTodo.created_at
        ∧ u.completed = exTodo.completed
        ∧ (∀ t1, jlookup "title" [("title", Json.str "B")] = some (Json.str t1)
            → u.title = t1)
        ∧ (jlookup "description" [("title", Json.str "B")] = none
            → u.description = none)
        ∧ (∀ d1, jlookup "description" [("title", Json.str "B")]
              = some (Json.str d1) → u.description = some d1)
        ∧ (jlookup "priority" [("title", Json.str "B")] = none
            → u.priority = some 1)
        ∧ (∀ n, jlookup "priority" [("title", Json.str "B")] = some (Json.int n)
            → u.priority = some n)) :=
  ⟨by decide, by decide,
   C1_update_fields "X" [("title", Json.str "B")] exStore exTodo
     { value := { title := "B", description := none, priority := some 1 },
       descriptionSet := false, prioritySet := false }
     (by decide) (by decide)⟩

/-- Counterexample to claim C2 as stated: a PATCH body that omits `title`
(here `{description: "x"}`) against the existing id `"X"` fails validation
instead of succeeding — `title` is a required field of the update schema. -/
theorem C2_counterexample :
    dictGet "X" exStore = some exTodo
    ∧ (update_todo "X" [("description", Json.str "x")] exStore).1
        = Except.error Err.validation := by
  decide

/-- Claim C2 (amended): the update handler accepts a body with any subset of
`description`/`priority` alongside the mandatory `title`, but a body that
omits `title` fails with a validation error (422) even when the id exists. -/
theorem C2_update_requires_title (todo_id : String) (body : JsonObj)
    (todos : Store) (old : Todo)
    (hold : dictGet todo_id todos = some old) :
    (jlookup "title" body = none
      → update_todo todo_id body todos = (Except.error Err.validation, todos))
    ∧ (∀ t1 d pr, jlookup "title" body = some (Json.str t1)
        → parseDescriptionField (jlookup "description" body) = some d
        → parsePriorityField (jlookup "priority" body) = some pr
        → ∃ u : Todo, (update_todo todo_id body todos).1 = Except.ok u) := by
  constructor
  · intro htitle
    have hp : parseTodoCreate body = none := by
      simp [parseTodoCreate, htitle, parseTitleField]
    simp [update_todo, get_todo_by_id, hold, hp]
  · intro t1 d pr h1 h2 h3
    have hp : parseTodoCreate body
        = some { value := { title := t1, description := d.1, priority := pr.1 },
                 descriptionSet := d.2, prioritySet := pr.2 } := by
      simp [parseTodoCreate, h1, parseTitleField, h2, h3]
    obtain ⟨u, hu, _⟩ := update_ok todo_id body todos old _ hold hp
    exact ⟨u, by rw [hu]⟩

/-- Witness for the amended C2: against the existing id `"X"`, the body
`{priority: 3}` (no `title`) is rejected with a validation error. -/
theorem C2_update_requires_title_witness :
    dictGet "X" exStore = some exTodo
    ∧ ((jlookup "title" [("priority", Json.int 3)] = none
        → update_todo "X" [("priority", Json.int 3)] exStore
            = (Except.error Err.validation, exStore))
      ∧ (∀ t1 d pr, jlookup "title" [("priority", Json.int 3)]
            = some (Json.str t1)
          → parseDescriptionField
              (jlookup "description" [("priority", Json.int 3)]) = some d
          → parsePriorityField
              (jlookup "priority" [("priority", Json.int 3)]) = some pr
          → ∃ u : Todo,
              (update_todo "X" [("priority", Json.int 3)] exStore).1
                = Except.ok u)) :=
  ⟨by decide,
   C2_update_requires_title "X" [("priority", Json.int 3)] exStore exTodo (by decide)⟩

/-- Claim C8: `completed` is not a field of the update schema, so a
`completed` entry in an update body is ignored by validation, and every
successful update (with or without such an entry) returns and stores a
record whose `completed` equals the existing record's `completed`. -/
theorem C8_update_ignores_completed (todo_id : String) (j : Json)
    (body : JsonObj) (todos : Store) (old : Todo)
    (hold : dictGet todo_id todos = some old) :
    parseTodoCreate (("completed", j) :: body) = parseTodoCreate body
    ∧ (∀ u s1, update_todo todo_id (("completed", j) :: body) todos
          = (Except.ok u, s1)
        → u.completed = old.completed ∧ dictGet todo_id s1 = some u)
    ∧ (∀ u s1, update_todo todo_id body todos = (Except.ok u, s1)
        → u.completed = old.completed) := by
  have e1 : jlookup "title" (("completed", j) :: body) = jlookup "title" body :=
    jlookup_cons_ne _ _ _ _ (by decide)
  have e2 : jlookup "description" (("completed", j) :: body)
      = jlookup "description" body :=
    jlookup_cons_ne _ _ _ _ (by decide)
  have e3 : jlookup "priority" (("completed", j) :: body)
      = jlookup "priority" body :=
    jlookup_cons_ne _ _ _ _ (by decide)
  have hpar : parseTodoCreate (("completed", j) :: body) = parseTodoCreate body := by
    simp [parseTodoCreate, e1, e2, e3]
  have hsame : update_todo todo_id (("completed", j) :: body) todos
      = update_todo todo_id body todos := by
    simp [update_todo, hpar]
  refine ⟨hpar, ?_, ?_⟩
  · intro u s1 hu
    rw [hsame] at hu
    cases hp : parseTodoCreate body with
    | none =>
        rw [show update_todo todo_id body todos = (Except.error Err.validation, todos)
              from by simp [update_todo, get_todo_by_id, hold, hp]] at hu
        simp at hu
    | some p =>
        obtain ⟨u0, hu0, hid, hca, hco, _⟩ := update_ok todo_id body todos old p hold hp
        rw [hu0] at hu
        injection hu with hl hr
        injection hl with hl
        subst hl
        subst hr
        exact ⟨hco, dictGet_dictSet_self _ _ _⟩
  · intro u s1 hu
    cases hp : parseTodoCreate body with
    | none =>
        rw [show update_todo todo_id body todos = (Except.error Err.validation, todos)
              from by simp [update_todo, get_todo_by_id, hold, hp]] at hu
        simp at hu
    | some p =>
        obtain ⟨u0, hu0, hid, hca, hco, _⟩ := update_ok todo_id body todos old p hold hp
        rw [hu0] at hu
        injection hu with hl hr
        injection hl with hl
        subst hl
        exact hco

/-- Witness for C8: updating `"X"` with `{completed: true, title: "B"}` is
parsed exactly like `{title: "B"}` and keeps `completed = false`. -/
theorem C8_update_ignores_completed_witness :
    dictGet "X" exStore = some exTodo
    ∧ (parseTodoCreate (("completed", Json.bool true) :: [("title", Json.str "B")])
          = parseTodoCreate [("title", Json.str "B")]
      ∧ (∀ u s1, update_todo "X"
            (("completed", Json.bool true) :: [("title", Json.str "B")]) exStore
            = (Except.ok u, s1)
          → u.completed = exTodo.completed ∧ dictGet "X" s1 = some u)
      ∧ (∀ u s1, update_todo "X" [("title", Json.str "B")] exStore
            = (Except.ok u, s1)
          → u.completed = exTodo.completed)) :=
  ⟨by decide,
   C8_update_ignores_completed "X" (Json.bool true) [("title", Json.str "B")]
     exStore exTodo (by decide)⟩

/-- Witness for C9: deleting/updating/getting the absent id `"Y"` in
`exStore` errors and leaves `exStore` untouched. -/
theorem C9_not_found_leaves_store_witness :
    dictGet "Y" exStore = none
    ∧ (update_todo "Y" [("title", Json.str "B")] exStore
          = (Except.error (Err.notFound (notFoundMsg "Y")), exStore)
        ∧ delete_todo "Y" exStore
            = (Except.error (Err.notFound (notFoundMsg "Y")), exStore)
        ∧ get_todo "Y" exStore = Except.error (Err.notFound (notFoundMsg "Y"))) :=
  ⟨by decide, C9_not_found_leaves_store "Y" [("title", Json.str "B")] exStore (by decide)⟩

/-- Claim C5: once a record is stored, no operation changes its `id`,
`created_at`, or `completed`: a successful update rebuilds the record from
exactly those three old values, an update or delete of a different id and a
create with a fresh id leave the record untouched, and delete can only
remove it (get and list are read-only functions of the store in this
embedding). -/
theorem C5_immutable_fields (k : String) (todos : Store) (old : Todo)
    (hnd : KeysNodup todos) (hold : dictGet k todos = some old) :
    (∀ todo_id body u, dictGet k (update_todo todo_id body todos).2 = some u
        → u.id = old.id ∧ u.created_at = old.created_at
          ∧ u.completed = old.completed)
    ∧ (∀ body g now, dictGet g todos = none
        → dictGet k (create_todo body g now todos).2 = some old)
    ∧ (∀ todo_id u, dictGet k (delete_todo todo_id todos).2 = some u
        → u = old) := by
  refine ⟨?_, ?_, ?_⟩
  · intro todo_id body u hu
    cases hg : dictGet todo_id todos with
    | none =>
        rw [show (update_todo todo_id body todos).2 = todos from by
              simp [update_todo, get_todo_by_id, hg]] at hu
        rw [hold] at hu
        injection hu with hu
        subst hu
        exact ⟨rfl, rfl, rfl⟩
    | some t0 =>
        cases hp : parseTodoCreate body with
        | none =>
            rw [show (update_todo todo_id body todos).2 = todos from by
                  simp [update_todo, get_todo_by_id, hg, hp]] at hu
            rw [hold] at hu
            injection hu with hu
            subst hu
            exact ⟨rfl, rfl, rfl⟩
        | some p =>
            obtain ⟨u0, hu0, hid, hca, hco, _⟩ :=
              update_ok todo_id body todos t0 p hg hp
            rw [hu0] at hu
            by_cases hk : todo_id = k
            · subst hk
              rw [show ((Except.ok u0, dictSet todo_id u0 todos) :
                    Except Err Todo × Store).2 = dictSet todo_id u0 todos from rfl,
                  dictGet_dictSet_self] at hu
              injection hu with hu
              subst hu
              have ht0 : t0 = old := by
                rw [hg] at hold
                injection hold
              exact ⟨by rw [hid, ht0], by rw [hca, ht0], by rw [hco, ht0]⟩
            · rw [show ((Except.ok u0, dictSet todo_id u0 todos) :
                    Except Err Todo × Store).2 = dictSet todo_id u0 todos from rfl,
                  dictGet_dictSet_ne _ _ _ _ hk, hold] at hu
              injection hu with hu
              subst hu
              exact ⟨rfl, rfl, rfl⟩
  · intro body g now hfresh
    cases hp : parseTodoCreate body with
    | none => simpa [create_todo, hp] using hold
    | some p =>
        have hgk : g ≠ k := by
          intro he
          rw [he, hold] at hfresh
          exact Option.noConfusion hfresh
        simp only [create_todo, hp]
        rw [dictGet_dictSet_ne _ _ _ _ hgk]
        exact hold
  · intro todo_id u hu
    cases hg : dictGet todo_id todos with
    | none =>
        rw [show (delete_todo todo_id todos).2 = todos from by
              simp [delete_todo, get_todo_by_id, hg]] at hu
        rw [hold] at hu
        injection hu with hu
        subst hu
        rfl
    | some t0 =>
        rw [show (delete_todo todo_id todos).2 = dictPop t0.id todos from by
              simp [delete_todo, get_todo_by_id, hg]] at hu
        by_cases hk : t0.id = k
        · rw [hk, dictGet_dictPop_self _ _ hnd] at hu
          exact Option.noConfusion hu
        · rw [dictGet_dictPop_ne _ _ _ hk, hold] at hu
          injection hu with hu
          subst hu
          rfl

/-- Witness for C5 at the record `"X"` of `exStore`. -/
theorem C5_immutable_fields_witness :
    KeysNodup exStore
    ∧ dictGet "X" exStore = some exTodo
    ∧ ((∀ todo_id body u,
          dictGet "X" (update_todo todo_id body exStore).2 = some u
          → u.id = exTodo.id ∧ u.created_at = exTodo.created_at
            ∧ u.completed = exTodo.completed)
      ∧ (∀ body g now, dictGet g exStore = none
          → dictGet "X" (create_todo body g now exStore).2 = some exTodo)
      ∧ (∀ todo_id u, dictGet "X" (delete_todo todo_id exStore).2 = some u
          → u = exTodo)) :=
  ⟨by decide, by decide,
   C5_immutable_fields "X" exStore exTodo (by decide) (by decide)⟩

/-- Claim C7: deleting a present id succeeds with the empty no-content
response and removes exactly that entry (the id is gone, every other key is
untouched, a subsequent get 404s); deleting an absent id fails not-found and
leaves the store unchanged. -/
theorem C7_delete_removes (todo_id : String) (todos : Store)
    (hwf : StoreWF todos) :
    (∀ t, dictGet todo_id todos = some t
        → delete_todo todo_id todos = (Except.ok (), dictPop todo_id todos)
          ∧ dictGet todo_id (delete_todo todo_id todos).2 = none
          ∧ (∀ k, k ≠ todo_id
              → dictGet k (delete_todo todo_id todos).2 = dictGet k todos)
          ∧ get_todo todo_id (delete_todo todo_id todos).2
              = Except.error (Err.notFound (notFoundMsg todo_id)))
    ∧ (dictGet todo_id todos = none
        → delete_todo todo_id todos
            = (Except.error (Err.notFound (notFoundMsg todo_id)), todos)) := by
  constructor
  · intro t ht
    have htid : t.id = todo_id := hwf.2 (todo_id, t) (dictGet_mem _ _ _ ht)
    have hdel : delete_todo todo_id todos = (Except.ok (), dictPop todo_id todos) := by
      simp [delete_todo, get_todo_by_id, ht, htid]
    have hnone : dictGet todo_id (dictPop todo_id todos) = none :=
      dictGet_dictPop_self _ _ hwf.1
    refine ⟨hdel, ?_, ?_, ?_⟩
    · rw [hdel]; exact hnone
    · intro k hk
      rw [hdel]
      exact dictGet_dictPop_ne k todo_id todos (Ne.symm hk)
    · rw [hdel]
      simp [get_todo, get_todo_by_id, hnone]
  · intro habs
    simp [delete_todo, get_todo_by_id, habs]

/-- Witness for C7: deleting the present `"X"` from `exStore` empties it and
a following get 404s; deleting the absent `"Y"` 404s without touching the
store. -/
theorem C7_delete_removes_witness :
    StoreWF exStore
    ∧ dictGet "X" exStore = some exTodo
    ∧ (delete_todo "X" exStore = (Except.ok (), dictPop "X" exStore)
        ∧ dictGet "X" (delete_todo "X" exStore).2 = none
        ∧ (∀ k, k ≠ "X" → dictGet k (delete_todo "X" exStore).2 = dictGet k exStore)
        ∧ get_todo "X" (delete_todo "X" exStore).2
            = Except.error (Err.notFound (notFoundMsg "X")))
    ∧ (dictGet "Y" exStore = none
        → delete_todo "Y" exStore
            = (Except.error (Err.notFound (notFoundMsg "Y")), exStore)) :=
  ⟨by decide, by decide,
   (C7_delete_removes "X" exStore (by decide)).1 exTodo (by decide),
   (C7_delete_removes "Y" exStore (by decide)).2⟩

/-- Each create in a run of valid create requests with pairwise-fresh ids
succeeds, and the final store holds exactly the created records, in
creation order after the records already present. -/
theorem createSeq_spec : ∀ (reqs : List (JsonObj × String × Nat)) (todos : Store),
    (∀ r ∈ reqs, (parseTodoCreate r.1).isSome = true)
    → ((reqs.map fun r => r.2.1).Nodup)
    → (∀ r ∈ reqs, dictGet r.2.1 todos = none)
    → ∃ ts : List Todo,
        (createSeq reqs todos).1 = ts.map Except.ok
        ∧ list_todos (createSeq reqs todos).2 = list_todos todos ++ ts
        ∧ ts.length = reqs.length := by
  intro reqs
  induction reqs with
  | nil =>
      intro todos _ _ _
      exact ⟨[], rfl, by simp [createSeq], rfl⟩
  | cons r rest ih =>
      intro todos hok hnd hfresh
      obtain ⟨body, g, now⟩ := r
      have h1 : (parseTodoCreate body).isSome = true :=
        hok _ (List.mem_cons_self _ _)
      obtain ⟨p, hp⟩ := Option.isSome_iff_exists.mp h1
      have hfg : dictGet g todos = none := hfresh _ (List.mem_cons_self _ _)
      obtain ⟨u, hcr⟩ : ∃ u : Todo,
          create_todo body g now todos = (Except.ok u, todos ++ [(g, u)]) := by
        refine ⟨{ id := g, created_at := now, title := p.value.title,
                  description := p.value.description,
                  priority := p.value.priority, completed := false }, ?_⟩
        rw [← dictSet_fresh g _ todos hfg]
        simp [create_todo, hp]
      have hnd1 : (g :: rest.map fun r2 => r2.2.1).Nodup := by simpa using hnd
      have hfresh2 : ∀ r2 ∈ rest, dictGet r2.2.1 (todos ++ [(g, u)]) = none := by
        intro r2 hr2
        have hne : g ≠ r2.2.1 := by
          intro he
          apply (List.nodup_cons.mp hnd1).1
          rw [he]
          exact List.mem_map_of_mem _ hr2
        rw [dictGet_append_of_none _ _ _ (hfresh r2 (List.mem_cons_of_mem _ hr2))]
        simp [dictGet, hne]
      obtain ⟨ts, hts1, hts2, hts3⟩ :=
        ih (todos ++ [(g, u)])
          (fun r2 hr2 => hok _ (List.mem_cons_of_mem _ hr2))
          (List.nodup_cons.mp hnd1).2 hfresh2
      refine ⟨u :: ts, ?_, ?_, by simp [hts3]⟩
      · simp [createSeq, hcr, hts1]
      · simp only [createSeq, hcr]
        rw [hts2]
        simp [list_todos]

/-- Claim C6: the list handler returns every stored record; on the empty
store it returns the empty sequence rather than an error, and after creating
N todos (valid bodies, distinct generated ids) into an empty store it
returns exactly those N records, each the record the corresponding create
call returned, in order. -/
theorem C6_list_returns_all (reqs : List (JsonObj × String × Nat))
    (hok : ∀ r ∈ reqs, (parseTodoCreate r.1).isSome = true)
    (hnd : (reqs.map fun r => r.2.1).Nodup) :
    list_todos ([] : Store) = []
    ∧ ∃ ts : List Todo,
        (createSeq reqs []).1 = ts.map Except.ok
        ∧ list_todos (createSeq reqs []).2 = ts
        ∧ ts.length = reqs.length := by
  refine ⟨rfl, ?_⟩
  obtain ⟨ts, h1, h2, h3⟩ := createSeq_spec reqs [] hok hnd (fun r _ => rfl)
  exact ⟨ts, h1, by simpa using h2, h3⟩

/-- Witness for C6: creating two todos `"a"`, `"b"` with fresh ids `"i1"`,
`"i2"` into an empty store makes the list handler return exactly those two
records in order. -/
theorem C6_list_returns_all_witness :
    (∀ r ∈ ([([("title", Json.str "a")], "i1", 1),
             ([("title", Json.str "b")], "i2", 2)] :
              List (JsonObj × String × Nat)),
        (parseTodoCreate r.1).isSome = true)
    ∧ (([([("title", Json.str "a")], "i1", 1),
         ([("title", Json.str "b")], "i2", 2)] :
          List (JsonObj × String × Nat)).map fun r => r.2.1).Nodup
    ∧ (list_todos ([] : Store) = []
      ∧ ∃ ts : List Todo,
          (createSeq [([("title", Json.str "a")], "i1", 1),
                      ([("title", Json.str "b")], "i2", 2)] []).1
            = ts.map Except.ok
          ∧ list_todos (createSeq [([("title", Json.str "a")], "i1", 1),
                                   ([("title", Json.str "b")], "i2", 2)] []).2 = ts
          ∧ ts.length
              = ([([("title", Json.str "a")], "i1", 1),
                  ([("title", Json.str "b")], "i2", 2)] :
                   List (JsonObj × String × Nat)).length) :=
  ⟨by decide, by decide,
   C6_list_returns_all
     [([("title", Json.str "a")], "i1", 1), ([("title", Json.str "b")], "i2", 2)]
     (by decide) (by decide)⟩

end TodoApp
